import Mathlib

/-
Verification of the AutoIQA image quality assessment engine
(image_quality_assessor.py) against its natural-language specification.

Shallow embedding conventions:
- 8-bit pixel samples are natural numbers (0..255 by construction of inputs).
- Pixel grids are lists of rows.  OpenCV fixed-point arithmetic (grayscale
  conversion, Gaussian blur, HSV saturation) is reproduced with exact
  integer arithmetic, including rounding and border handling.
- Python float statistics (np.mean, np.var, np.std) are modelled with exact
  rationals.  Where the source emits a standard deviation (an irrational
  square root), the development carries the variance instead and compares
  against squared thresholds: for t > 0 and v >= 0, sqrt v < t iff v < t^2,
  so every tier decision is preserved exactly.
- Python round(x, n) rounds half to even; roundHalfEven / roundTo model it.
-/

set_option maxRecDepth 20000

namespace AutoIQA

/-- The four quality tiers used throughout the assessor
("Excellent", "Good", "Fair", "Poor" in the source). -/
inductive Quality where
  | excellent
  | good
  | fair
  | poor
deriving DecidableEq, Repr

/-- quality_scores in calculate_overall_score: Excellent=4, Good=3, Fair=2, Poor=1. -/
def qualityScores (q : Quality) : ℚ :=
  match q with
  | .excellent => 4
  | .good => 3
  | .fair => 2
  | .poor => 1

/-- Round a rational to the nearest integer, halves to even
(the rounding of Python round() and numpy round()). -/
def roundHalfEven (q : ℚ) : ℤ :=
  let f : ℤ := ⌊q⌋
  let r : ℚ := q - (f : ℚ)
  if r < 1/2 then f
  else if 1/2 < r then f + 1
  else if f % 2 = 0 then f else f + 1

/-- Python round(q, d): round to d decimal places, halves to even. -/
def roundTo (d : ℕ) (q : ℚ) : ℚ :=
  (roundHalfEven (q * (10 : ℚ) ^ d) : ℚ) / (10 : ℚ) ^ d

/-- round(x, 2), the rounding applied to every emitted metric score. -/
def round2 (q : ℚ) : ℚ := roundTo 2 q

/-! ## Aggregator (calculate_overall_score) -/

/-- The fixed aspect weights of calculate_overall_score
(0.25, 0.15, 0.20, 0.20, 0.10, 0.10 in the source, exact here). -/
def weights : List (String × ℚ) :=
  [("sharpness", 25/100), ("brightness", 15/100), ("contrast", 20/100),
   ("noise", 20/100), ("color_balance", 10/100), ("saturation", 10/100)]

/-- Overall summary sentence for tier Excellent. -/
def sOverallExc : String :=
  "This is a high-quality image with excellent technical characteristics."

/-- Overall summary sentence for tier Good. -/
def sOverallGood : String :=
  "This is a good quality image with minor areas for improvement."

/-- Overall summary sentence for tier Fair. -/
def sOverallFair : String :=
  "This image has acceptable quality but would benefit from enhancement."

/-- Overall summary sentence for tier Poor. -/
def sOverallPoor : String :=
  "This image has significant quality issues that should be addressed."

/-- The overall result: percentage score (rounded to 1 decimal), tier, summary. -/
structure OverallResult where
  score : ℚ
  quality : Quality
  summary : String
deriving DecidableEq, Repr

/-- calculate_overall_score.  The input map sends an aspect key to the
quality tier recorded for it, or none when the key is absent from the
results dict; the loop body adds a weighted contribution only for present
keys, exactly as the source guards with an `in` membership test. -/
def calculate_overall_score (results : String → Option Quality) : OverallResult :=
  let total_score : ℚ := weights.foldl
    (fun acc kw =>
      match results kw.1 with
      | some q => acc + qualityScores q * kw.2
      | none => acc) 0
  let overall_percentage : ℚ := total_score / 4 * 100
  if 85 ≤ overall_percentage then
    { score := roundTo 1 overall_percentage, quality := .excellent, summary := sOverallExc }
  else if 70 ≤ overall_percentage then
    { score := roundTo 1 overall_percentage, quality := .good, summary := sOverallGood }
  else if 55 ≤ overall_percentage then
    { score := roundTo 1 overall_percentage, quality := .fair, summary := sOverallFair }
  else
    { score := roundTo 1 overall_percentage, quality := .poor, summary := sOverallPoor }

/-- The contribution of one (aspect, weight) pair to the weighted sum:
points times weight when present, 0 when the key is absent. -/
def aspectContribution (results : String → Option Quality) (kw : String × ℚ) : ℚ :=
  match results kw.1 with
  | some q => qualityScores q * kw.2
  | none => 0

/-- The weighted point sum with absent aspects skipped (spec reading of the
aggregator loop, written as a sum over the weight table). -/
def skipTotal (results : String → Option Quality) : ℚ :=
  (weights.map (aspectContribution results)).sum

/-- The percentage the aggregator computes: the skipped-sum divided by the
fixed divisor 4, times 100 — the divisor does not depend on how many
aspects are present. -/
def overallPercentage (results : String → Option Quality) : ℚ :=
  skipTotal results / 4 * 100

/-- The sum of the weights of the aspects actually present (used only to
state that the aggregator does NOT renormalize by it). -/
def presentWeightSum (results : String → Option Quality) : ℚ :=
  (weights.map (fun kw =>
    match results kw.1 with
    | some _ => kw.2
    | none => 0)).sum

/-- What a weight-renormalizing aggregator would report instead. -/
def renormalizedPercentage (results : String → Option Quality) : ℚ :=
  skipTotal results / (4 * presentWeightSum results) * 100

/-- The tier assignment used as the worked example in the spec:
sharpness Excellent, brightness Good, contrast Excellent, noise Good,
color balance Excellent, saturation Excellent. -/
def exTiers : String → Option Quality := fun k =>
  if k = "sharpness" then some .excellent
  else if k = "brightness" then some .good
  else if k = "contrast" then some .excellent
  else if k = "noise" then some .good
  else if k = "color_balance" then some .excellent
  else if k = "saturation" then some .excellent
  else none

/-- All six weighted aspects Excellent except saturation, which is absent
(used to exhibit the no-renormalization behavior). -/
def exPartialTiers : String → Option Quality := fun k =>
  if k = "saturation" then none
  else if k = "sharpness" then some .excellent
  else if k = "brightness" then some .excellent
  else if k = "contrast" then some .excellent
  else if k = "noise" then some .excellent
  else if k = "color_balance" then some .excellent
  else none

/-- The aggregator loop equals the skipped weighted sum over the table. -/
theorem foldl_weights_eq_skipTotal (results : String → Option Quality)
    (l : List (String × ℚ)) (acc : ℚ) :
    l.foldl (fun acc kw =>
      match results kw.1 with
      | some q => acc + qualityScores q * kw.2
      | none => acc) acc
      = acc + (l.map (aspectContribution results)).sum := by
  induction l generalizing acc with
  | nil => simp
  | cons kw tl ih =>
    simp only [List.foldl_cons, List.map_cons, List.sum_cons]
    rcases h : results kw.1 with _ | q <;>
      simp [aspectContribution, h, ih, add_assoc]

/-- The score field of the aggregator is always the rounded percentage, and
the tier comes from comparing the unrounded percentage with 85/70/55. -/
theorem calculate_overall_score_spec (results : String → Option Quality) :
    (calculate_overall_score results).score = roundTo 1 (overallPercentage results)
      ∧ ((calculate_overall_score results).quality = .excellent ↔
          85 ≤ overallPercentage results)
      ∧ ((calculate_overall_score results).quality = .good ↔
          70 ≤ overallPercentage results ∧ overallPercentage results < 85)
      ∧ ((calculate_overall_score results).quality = .fair ↔
          55 ≤ overallPercentage results ∧ overallPercentage results < 70)
      ∧ ((calculate_overall_score results).quality = .poor ↔
          overallPercentage results < 55) := by
  have htot : overallPercentage results
      = (weights.foldl (fun acc kw =>
          match results kw.1 with
          | some q => acc + qualityScores q * kw.2
          | none => acc) 0) / 4 * 100 := by
    rw [foldl_weights_eq_skipTotal]
    simp [overallPercentage, skipTotal]
  simp only [calculate_overall_score]
  rw [← htot]
  split_ifs with h1 h2 h3 <;>
    refine ⟨rfl, ?_, ?_, ?_, ?_⟩ <;>
    simp_all <;> intros <;> linarith

/-- Evaluation of the skipped weighted sum on the spec's worked example. -/
theorem skipTotal_exTiers : skipTotal exTiers = 73/20 := by
  have h1 : exTiers "sharpness" = some Quality.excellent := by decide
  have h2 : exTiers "brightness" = some Quality.good := by decide
  have h3 : exTiers "contrast" = some Quality.excellent := by decide
  have h4 : exTiers "noise" = some Quality.good := by decide
  have h5 : exTiers "color_balance" = some Quality.excellent := by decide
  have h6 : exTiers "saturation" = some Quality.excellent := by decide
  simp [skipTotal, weights, aspectContribution, h1, h2, h3, h4, h5, h6,
    qualityScores]
  norm_num

/-- Evaluation of the percentage on the spec's worked example. -/
theorem overallPercentage_exTiers : overallPercentage exTiers = 9125/100 := by
  rw [overallPercentage, skipTotal_exTiers]; norm_num

/-- Evaluation of the skipped weighted sum with saturation absent. -/
theorem skipTotal_exPartialTiers : skipTotal exPartialTiers = 36/10 := by
  have h1 : exPartialTiers "sharpness" = some Quality.excellent := by decide
  have h2 : exPartialTiers "brightness" = some Quality.excellent := by decide
  have h3 : exPartialTiers "contrast" = some Quality.excellent := by decide
  have h4 : exPartialTiers "noise" = some Quality.excellent := by decide
  have h5 : exPartialTiers "color_balance" = some Quality.excellent := by decide
  have h6 : exPartialTiers "saturation" = none := by decide
  simp [skipTotal, weights, aspectContribution, h1, h2, h3, h4, h5, h6,
    qualityScores]
  norm_num

/-- Evaluation of the present-weight sum with saturation absent. -/
theorem presentWeightSum_exPartialTiers :
    presentWeightSum exPartialTiers = 9/10 := by
  have h1 : exPartialTiers "sharpness" = some Quality.excellent := by decide
  have h2 : exPartialTiers "brightness" = some Quality.excellent := by decide
  have h3 : exPartialTiers "contrast" = some Quality.excellent := by decide
  have h4 : exPartialTiers "noise" = some Quality.excellent := by decide
  have h5 : exPartialTiers "color_balance" = some Quality.excellent := by decide
  have h6 : exPartialTiers "saturation" = none := by decide
  simp [presentWeightSum, weights, h1, h2, h3, h4, h5, h6]
  norm_num

/-- C3 counterexample: on the tier assignment the spec uses as its worked
example (sharpness Excellent, brightness Good, contrast Excellent, noise
Good, color balance Excellent, saturation Excellent), the aggregator
reports 91.2 percent, not the 93.8 the claim states: the weighted point
sum is 0.25*4 + 0.15*3 + 0.20*4 + 0.20*3 + 0.10*4 + 0.10*4 = 3.65, not 3.75. -/
theorem c3_overall_example_score_is_912_not_938 :
    (calculate_overall_score exTiers).score = 912/10
      ∧ (calculate_overall_score exTiers).score ≠ 938/10 := by
  have h : (calculate_overall_score exTiers).score = 912/10 := by
    rw [(calculate_overall_score_spec exTiers).1, overallPercentage_exTiers]
    norm_num [roundTo, roundHalfEven]
  refine ⟨h, ?_⟩
  rw [h]
  norm_num

/-- C3 (amended): the overall score is a pure function of the six weighted
tiers with points Excellent=4 Good=3 Fair=2 Poor=1, weights 0.25 / 0.15 /
0.20 / 0.20 / 0.10 / 0.10, percentage = (sum/4)*100 rounded (half to even)
to 1 decimal; the spec's worked tier assignment has weighted sum 3.65,
percentage 91.25, reported score 91.2, overall tier Excellent. -/
theorem c3_overall_score_amended :
    (∀ results, (calculate_overall_score results).score
        = roundTo 1 (overallPercentage results))
      ∧ skipTotal exTiers = 73/20
      ∧ overallPercentage exTiers = 9125/100
      ∧ (calculate_overall_score exTiers).score = 912/10
      ∧ (calculate_overall_score exTiers).quality = .excellent := by
  refine ⟨fun results => (calculate_overall_score_spec results).1,
    skipTotal_exTiers, overallPercentage_exTiers, ?_, ?_⟩
  · rw [(calculate_overall_score_spec exTiers).1, overallPercentage_exTiers]
    norm_num [roundTo, roundHalfEven]
  · refine ((calculate_overall_score_spec exTiers).2.1).mpr ?_
    rw [overallPercentage_exTiers]
    norm_num

/-- C4: an absent aspect contributes nothing and its weight is simply
omitted; the percentage divisor stays 4 however many aspects are present
(first conjunct, for every input map).  Concretely, five Excellent aspects
with saturation absent give percentage 90 (score 90), where a
renormalizing aggregator would have reported 100. -/
theorem c4_missing_aspects_skipped_not_renormalized :
    (∀ results, (calculate_overall_score results).score
        = roundTo 1 (skipTotal results / 4 * 100))
      ∧ skipTotal exPartialTiers = 36/10
      ∧ overallPercentage exPartialTiers = 90
      ∧ (calculate_overall_score exPartialTiers).score = 90
      ∧ presentWeightSum exPartialTiers = 9/10
      ∧ renormalizedPercentage exPartialTiers = 100 := by
  have hpct : overallPercentage exPartialTiers = 90 := by
    rw [overallPercentage, skipTotal_exPartialTiers]; norm_num
  refine ⟨fun results => (calculate_overall_score_spec results).1,
    skipTotal_exPartialTiers, hpct, ?_, presentWeightSum_exPartialTiers, ?_⟩
  · rw [(calculate_overall_score_spec exPartialTiers).1, hpct]
    norm_num [roundTo, roundHalfEven]
  · rw [renormalizedPercentage, skipTotal_exPartialTiers,
      presentWeightSum_exPartialTiers]
    norm_num

/-! ## Canonical image model and OpenCV primitives -/

/-- One pixel of the canonical buffer in OpenCV channel order (b, g, r),
each sample an 8-bit value. -/
structure BGR where
  b : ℕ
  g : ℕ
  r : ℕ
deriving DecidableEq, Repr

/-- A canonical image: a list of pixel rows. -/
abbrev Img := List (List BGR)

/-- cv2.cvtColor(..., COLOR_BGR2GRAY): fixed-point luminance
(R*4899 + G*9617 + B*1868 + 2^13) >> 14, the exact OpenCV arithmetic. -/
def cvtGray (p : BGR) : ℤ :=
  (((p.r * 4899 + p.g * 9617 + p.b * 1868 + 8192) / 16384 : ℕ) : ℤ)

/-- The single-channel luminance grid of an image. -/
def grayImg (img : Img) : List (List ℤ) :=
  img.map (fun row => row.map cvtGray)

/-- Sum of all samples of a grid. -/
def gridSum (g : List (List ℤ)) : ℤ := (g.map List.sum).sum

/-- Sum of the squares of all samples of a grid. -/
def gridSqSum (g : List (List ℤ)) : ℤ :=
  (g.map (fun row => (row.map (fun v => v * v)).sum)).sum

/-- Number of samples of a grid. -/
def gridCount (g : List (List ℤ)) : ℕ := (g.map List.length).sum

/-- np.mean over a grid, exact. -/
def gridMean (g : List (List ℤ)) : ℚ :=
  (gridSum g : ℚ) / (gridCount g : ℚ)

/-- np.var over a grid (population variance, ddof = 0), exact.
np.std is its square root; tier comparisons are done on this value
against squared thresholds. -/
def gridVar (g : List (List ℤ)) : ℚ :=
  (gridSqSum g : ℚ) / (gridCount g : ℚ) - (gridMean g) ^ 2

/-- One step of OpenCV BORDER_REFLECT_101 index folding. -/
def refl1 (n i : ℤ) : ℤ :=
  if i < 0 then -i else if n ≤ i then 2 * n - 2 - i else i

/-- OpenCV borderInterpolate with BORDER_REFLECT_101: fold an out-of-range
index back into [0, n).  Two folding steps suffice for the kernel radii
(at most 2) used by the assessor. -/
def reflect101 (n i : ℤ) : ℤ :=
  if n = 1 then 0 else refl1 n (refl1 n i)

/-- Sample a grid at (already in-range) integer coordinates. -/
def gridGet (g : List (List ℤ)) (y x : ℤ) : ℤ :=
  (g.getD y.toNat []).getD x.toNat 0

/-- Width of a grid (length of its first row; grids are rectangular). -/
def gridWidth (g : List (List ℤ)) : ℕ := (g.headD []).length

/-- Sample a grid with BORDER_REFLECT_101 border handling. -/
def gridAtRefl (g : List (List ℤ)) (y x : ℤ) : ℤ :=
  gridGet g (reflect101 (g.length : ℤ) y) (reflect101 (gridWidth g : ℤ) x)

/-- The separable 5-tap kernel OpenCV uses for GaussianBlur((5,5), 0) on
8-bit data: the fixed small-Gaussian table [1,4,6,4,1]/16, held here as
the integer numerators. -/
def gaussWeights : List ℤ := [1, 4, 6, 4, 1]

/-- One output sample of cv2.GaussianBlur(gray, (5,5), 0) on 8-bit data:
fixed-point separable convolution, accumulated exactly and descaled by
(acc + 2^7) >> 8 (the weights below sum to 256). -/
def gaussianBlurAt (g : List (List ℤ)) (y x : ℕ) : ℤ :=
  let acc := (List.range 5).foldl
    (fun a i => (List.range 5).foldl
      (fun a2 j =>
        a2 + gaussWeights.getD i 0 * gaussWeights.getD j 0 *
          gridAtRefl g ((y : ℤ) + (i : ℤ) - 2) ((x : ℤ) + (j : ℤ) - 2)) a) 0
  (acc + 128) / 256

/-- cv2.GaussianBlur(gray, (5,5), 0) over the whole grid. -/
def gaussianBlur5 (g : List (List ℤ)) : List (List ℤ) :=
  (List.range g.length).map (fun y =>
    (List.range (gridWidth g)).map (fun x => gaussianBlurAt g y x))

/-- One output sample of cv2.Laplacian(gray, CV_64F) with the default
aperture: kernel [[0,1,0],[1,-4,1],[0,1,0]], reflect-101 border.  Output
is exact (CV_64F holds these small integers exactly). -/
def laplacianAt (g : List (List ℤ)) (y x : ℕ) : ℤ :=
  gridAtRefl g ((y : ℤ) - 1) (x : ℤ) + gridAtRefl g ((y : ℤ) + 1) (x : ℤ)
    + gridAtRefl g (y : ℤ) ((x : ℤ) - 1) + gridAtRefl g (y : ℤ) ((x : ℤ) + 1)
    - 4 * gridAtRefl g (y : ℤ) (x : ℤ)

/-- cv2.Laplacian over the whole grid. -/
def laplacianGrid (g : List (List ℤ)) : List (List ℤ) :=
  (List.range g.length).map (fun y =>
    (List.range (gridWidth g)).map (fun x => laplacianAt g y x))

/-- Elementwise gray - blurred as the source computes it: both operands
are uint8 arrays, so numpy subtracts modulo 256 (wraparound). -/
def wrapDiff (a b : List (List ℤ)) : List (List ℤ) :=
  List.zipWith (fun ra rb => List.zipWith (fun u v => (u - v) % 256) ra rb) a b

/-- Elementwise gray - blurred as an exact (signed) difference of the two
pixel grids — the subtraction the specification describes. -/
def exactDiff (a b : List (List ℤ)) : List (List ℤ) :=
  List.zipWith (fun ra rb => List.zipWith (fun u v => u - v) ra rb) a b

/-! ## Metric suite -/

/-- A per-aspect result whose emitted score is a rational (mean or
variance) rounded to 2 decimals.  channelMeans carries the auxiliary
per-channel means of the color-balance metric (rounded, as emitted). -/
structure MetricResult where
  score : ℚ
  quality : Quality
  description : String
  metricName : String
  channelMeans : Option (ℚ × ℚ × ℚ) := none
deriving DecidableEq, Repr

/-- A per-aspect result whose emitted score is a standard deviation.  The
square root is irrational, so the development carries the variance
(varVal); the source's score is its square root rounded to 2 decimals, and
every tier comparison on the square root is mirrored here on varVal
against the squared threshold. -/
structure StdMetricResult where
  varVal : ℚ
  quality : Quality
  description : String
  metricName : String
deriving DecidableEq, Repr

/-- assess_sharpness: variance of the Laplacian of luminance, tiers
Excellent > 500, Good > 200, Fair > 100, Poor otherwise. -/
def assess_sharpness (image : Img) : MetricResult :=
  let laplacian_var := gridVar (laplacianGrid (grayImg image))
  if laplacian_var > 500 then
    { score := round2 laplacian_var, quality := .excellent,
      description := "The image is very sharp with crisp details and clear edges.",
      metricName := "Laplacian Variance" }
  else if laplacian_var > 200 then
    { score := round2 laplacian_var, quality := .good,
      description := "The image has good sharpness with most details clearly visible.",
      metricName := "Laplacian Variance" }
  else if laplacian_var > 100 then
    { score := round2 laplacian_var, quality := .fair,
      description := "The image has moderate sharpness but some details may appear soft.",
      metricName := "Laplacian Variance" }
  else
    { score := round2 laplacian_var, quality := .poor,
      description := "The image appears blurry or out of focus with poor detail definition.",
      metricName := "Laplacian Variance" }

/-- Tier bands of assess_brightness on the (unrounded) mean luminance:
Excellent [80,180], Good [60,200], Fair [40,220], else Poor. -/
def brightnessQuality (m : ℚ) : Quality :=
  if 80 ≤ m ∧ m ≤ 180 then .excellent
  else if 60 ≤ m ∧ m ≤ 200 then .good
  else if 40 ≤ m ∧ m ≤ 220 then .fair
  else .poor

/-- assess_brightness: mean luminance with banded tiers; the Poor
description distinguishes too dark (mean < 40) from overexposed. -/
def assess_brightness (image : Img) : MetricResult :=
  let mean_brightness := gridMean (grayImg image)
  if 80 ≤ mean_brightness ∧ mean_brightness ≤ 180 then
    { score := round2 mean_brightness, quality := .excellent,
      description := "The image has optimal brightness with good visibility of details.",
      metricName := "Mean Brightness (0-255)" }
  else if 60 ≤ mean_brightness ∧ mean_brightness ≤ 200 then
    { score := round2 mean_brightness, quality := .good,
      description := "The image brightness is acceptable with minor adjustments needed.",
      metricName := "Mean Brightness (0-255)" }
  else if 40 ≤ mean_brightness ∧ mean_brightness ≤ 220 then
    { score := round2 mean_brightness, quality := .fair,
      description := "The image is either slightly too dark or too bright.",
      metricName := "Mean Brightness (0-255)" }
  else if mean_brightness < 40 then
    { score := round2 mean_brightness, quality := .poor,
      description := "The image is too dark, making details difficult to see.",
      metricName := "Mean Brightness (0-255)" }
  else
    { score := round2 mean_brightness, quality := .poor,
      description := "The image is overexposed with blown-out highlights.",
      metricName := "Mean Brightness (0-255)" }

/-- assess_contrast: np.std of luminance with tiers Excellent > 60,
Good > 40, Fair > 25 — equivalently, on the variance, > 3600 / > 1600
/ > 625. -/
def assess_contrast (image : Img) : StdMetricResult :=
  let contrast_var := gridVar (grayImg image)
  if contrast_var > 3600 then
    { varVal := contrast_var, quality := .excellent,
      description := "The image has excellent contrast with a good range of tones.",
      metricName := "Standard Deviation" }
  else if contrast_var > 1600 then
    { varVal := contrast_var, quality := .good,
      description := "The image has good contrast with adequate tonal separation.",
      metricName := "Standard Deviation" }
  else if contrast_var > 625 then
    { varVal := contrast_var, quality := .fair,
      description := "The image has moderate contrast but could benefit from enhancement.",
      metricName := "Standard Deviation" }
  else
    { varVal := contrast_var, quality := .poor,
      description := "The image has poor contrast appearing flat or washed out.",
      metricName := "Standard Deviation" }

/-- The difference grid assess_noise computes: uint8 luminance minus its
5x5 Gaussian blur, with numpy uint8 wraparound (mod 256). -/
def noiseDiff (image : Img) : List (List ℤ) :=
  let gray := grayImg image
  wrapDiff gray (gaussianBlur5 gray)

/-- The variance of the wrapped difference grid — the square of the noise
estimate the source actually computes. -/
def noiseVarCode (image : Img) : ℚ := gridVar (noiseDiff image)

/-- The difference grid the specification describes: the exact signed
difference between luminance and its 5x5 Gaussian blur. -/
def noiseDiffExact (image : Img) : List (List ℤ) :=
  let gray := grayImg image
  exactDiff gray (gaussianBlur5 gray)

/-- The variance of the exact difference grid — the square of the noise
score the claim asserts. -/
def noiseVarExact (image : Img) : ℚ := gridVar (noiseDiffExact image)

/-- assess_noise: np.std(gray - blurred) with uint8 wraparound, tiers
Excellent < 5, Good < 10, Fair < 20 — equivalently, on the variance,
< 25 / < 100 / < 400. -/
def assess_noise (image : Img) : StdMetricResult :=
  let noise_var := noiseVarCode image
  if noise_var < 25 then
    { varVal := noise_var, quality := .excellent,
      description := "The image has minimal noise with clean, smooth areas.",
      metricName := "Noise Estimate (lower is better)" }
  else if noise_var < 100 then
    { varVal := noise_var, quality := .good,
      description := "The image has low noise levels that don't significantly impact quality.",
      metricName := "Noise Estimate (lower is better)" }
  else if noise_var < 400 then
    { varVal := noise_var, quality := .fair,
      description := "The image has moderate noise that may be noticeable in smooth areas.",
      metricName := "Noise Estimate (lower is better)" }
  else
    { varVal := noise_var, quality := .poor,
      description := "The image has high noise levels that significantly degrade quality.",
      metricName := "Noise Estimate (lower is better)" }

/-- Sum of one channel over an image. -/
def imgSumBy (image : Img) (f : BGR → ℕ) : ℕ :=
  (image.map (fun row => (row.map f).sum)).sum

/-- Number of pixels of an image. -/
def imgCount (image : Img) : ℕ := (image.map List.length).sum

/-- np.mean of one channel of an image, exact. -/
def imgMeanBy (image : Img) (f : BGR → ℕ) : ℚ :=
  (imgSumBy image f : ℚ) / (imgCount image : ℚ)

/-- The maximum absolute deviation of the three channel means from their
grand mean ((r + g + b) / 3), as computed by assess_color_balance. -/
def maxDeviation (mean_b mean_g mean_r : ℚ) : ℚ :=
  let overall_mean := (mean_r + mean_g + mean_b) / 3
  max |mean_r - overall_mean| (max |mean_g - overall_mean| |mean_b - overall_mean|)

/-- Dominant-cast adjective used in the Poor branch of
assess_color_balance: reddish when red is strictly greatest, greenish when
green is, bluish otherwise. -/
def castAdjective (mean_b mean_g mean_r : ℚ) : String :=
  if mean_r > mean_g ∧ mean_r > mean_b then "reddish"
  else if mean_g > mean_r ∧ mean_g > mean_b then "greenish"
  else "bluish"

/-- The body of assess_color_balance as a function of the three channel
means (the source computes the means with cv2.split and np.mean and then
only uses the means). -/
def colorBalanceFromMeans (mean_b mean_g mean_r : ℚ) : MetricResult :=
  let max_deviation := maxDeviation mean_b mean_g mean_r
  let means := some (round2 mean_r, round2 mean_g, round2 mean_b)
  if max_deviation < 10 then
    { score := round2 max_deviation, quality := .excellent,
      description := "The image has excellent color balance with neutral tones.",
      metricName := "Max Channel Deviation", channelMeans := means }
  else if max_deviation < 20 then
    { score := round2 max_deviation, quality := .good,
      description := "The image has good color balance with minor color casts.",
      metricName := "Max Channel Deviation", channelMeans := means }
  else if max_deviation < 35 then
    { score := round2 max_deviation, quality := .fair,
      description := "The image has noticeable color cast that may need correction.",
      metricName := "Max Channel Deviation", channelMeans := means }
  else
    { score := round2 max_deviation, quality := .poor,
      description := "The image has a strong " ++ castAdjective mean_b mean_g mean_r
        ++ " color cast affecting overall appearance.",
      metricName := "Max Channel Deviation", channelMeans := means }

/-- assess_color_balance on an image. -/
def assess_color_balance (image : Img) : MetricResult :=
  colorBalanceFromMeans (imgMeanBy image (fun p => p.b))
    (imgMeanBy image (fun p => p.g)) (imgMeanBy image (fun p => p.r))

/-- Round-half-to-even of a nonnegative integer quotient a / b
(cvRound on an exact decimal double). -/
def roundHalfEvenDiv (a b : ℕ) : ℕ :=
  let q := a / b
  let r := a % b
  if 2 * r < b then q
  else if b < 2 * r then q + 1
  else if q % 2 = 0 then q else q + 1

/-- OpenCV sdiv_table for the 8-bit HSV conversion:
cvRound((255 << 12) / v) for v > 0, and 0 at v = 0. -/
def sdivTable (v : ℕ) : ℕ :=
  if v = 0 then 0 else roundHalfEvenDiv 1044480 v

/-- The saturation sample of one pixel under cv2.cvtColor(..,
COLOR_BGR2HSV) on 8-bit data: s = ((v - vmin) * sdiv_table[v] + 2^11)
>> 12 where v / vmin are the channel max / min. -/
def satOf (p : BGR) : ℤ :=
  let v : ℕ := max p.r (max p.g p.b)
  let vmin : ℕ := min p.r (min p.g p.b)
  (((v - vmin) * sdivTable v + 2048) / 4096 : ℕ)

/-- The saturation channel of an image. -/
def satGrid (image : Img) : List (List ℤ) :=
  image.map (fun row => row.map satOf)

/-- assess_saturation: mean of the HSV saturation channel with banded
tiers Excellent [80,150], Good [60,180], Fair [40,200], else Poor; the
Poor description distinguishes washed out (mean < 40) from oversaturated. -/
def assess_saturation (image : Img) : MetricResult :=
  let mean_saturation := gridMean (satGrid image)
  if 80 ≤ mean_saturation ∧ mean_saturation ≤ 150 then
    { score := round2 mean_saturation, quality := .excellent,
      description := "The image has optimal color saturation with vibrant but natural colors.",
      metricName := "Mean Saturation (0-255)" }
  else if 60 ≤ mean_saturation ∧ mean_saturation ≤ 180 then
    { score := round2 mean_saturation, quality := .good,
      description := "The image has good color saturation with appealing colors.",
      metricName := "Mean Saturation (0-255)" }
  else if 40 ≤ mean_saturation ∧ mean_saturation ≤ 200 then
    { score := round2 mean_saturation, quality := .fair,
      description := "The image saturation could be improved for better color appeal.",
      metricName := "Mean Saturation (0-255)" }
  else if mean_saturation < 40 then
    { score := round2 mean_saturation, quality := .poor,
      description := "The image appears washed out with very low color saturation.",
      metricName := "Mean Saturation (0-255)" }
  else
    { score := round2 mean_saturation, quality := .poor,
      description := "The image is oversaturated with unnatural, intense colors.",
      metricName := "Mean Saturation (0-255)" }

/-- The advisory resolution/detail result. -/
structure ResolutionResult where
  resolution : String
  total_pixels : ℕ
  edge_density : ℚ
  resolution_quality : String
  detail_quality : String
  description : String
deriving DecidableEq, Repr

/-- assess_resolution_quality.  cv2.Canny(gray, 50, 150) lives in the
external vision library; its behavior is taken as an oracle argument
(canny), the way rawpy and cv2 decoding are oracles of the decoder
environment.  Everything after the edge map — pixel count buckets, edge
density, labels, description — is modelled from the source. -/
def assess_resolution_quality (canny : List (List ℤ) → List (List Bool))
    (image : Img) : ResolutionResult :=
  let height := image.length
  let width := (image.headD []).length
  let total_pixels := height * width
  let edges := canny (grayImg image)
  let edgeCount := (edges.map (fun row => (row.filter (fun b => b)).length)).sum
  let edge_density : ℚ := (edgeCount : ℚ) / (total_pixels : ℚ)
  let res_quality :=
    if total_pixels ≥ 8000000 then "High Resolution"
    else if total_pixels ≥ 2000000 then "Medium Resolution"
    else "Low Resolution"
  let sizeStr := toString width ++ "x" ++ toString height
  if edge_density > 1/10 then
    { resolution := sizeStr, total_pixels := total_pixels,
      edge_density := roundTo 4 edge_density,
      resolution_quality := res_quality, detail_quality := "Rich Detail",
      description := "The image is " ++ res_quality.toLower ++ " (" ++ sizeStr
        ++ ") with rich detail and sharp edges." }
  else if edge_density > 1/20 then
    { resolution := sizeStr, total_pixels := total_pixels,
      edge_density := roundTo 4 edge_density,
      resolution_quality := res_quality, detail_quality := "Moderate Detail",
      description := "The image is " ++ res_quality.toLower ++ " (" ++ sizeStr
        ++ ") with moderate detail levels." }
  else
    { resolution := sizeStr, total_pixels := total_pixels,
      edge_density := roundTo 4 edge_density,
      resolution_quality := res_quality, detail_quality := "Low Detail",
      description := "The image is " ++ res_quality.toLower ++ " (" ++ sizeStr
        ++ ") with limited detail or smooth content." }

/-- An all-black 3x3 image with a single white center pixel.  Its
luminance grid is 0 everywhere except 255 at the center; the 5x5 blur is
the constant 64, so gray - blurred is negative off-center and numpy's
uint8 subtraction wraps those eight samples to 192. -/
def exImgNoise : Img :=
  [[⟨0,0,0⟩, ⟨0,0,0⟩, ⟨0,0,0⟩],
   [⟨0,0,0⟩, ⟨255,255,255⟩, ⟨0,0,0⟩],
   [⟨0,0,0⟩, ⟨0,0,0⟩, ⟨0,0,0⟩]]

/-- C1 counterexample: the noise score is NOT the standard deviation of
the exact difference between luminance and its 5x5 Gaussian blur.  On a
3x3 black image with one white center pixel the source computes variance
8/81 (std about 0.31, tier Excellent) because the uint8 subtraction wraps
the eight negative differences to 192, while the exact difference has
variance 57800/9 (std about 80.1, which would be tier Poor). -/
theorem c1_noise_exact_difference_counterexample :
    noiseVarCode exImgNoise = 8/81
      ∧ noiseVarExact exImgNoise = 57800/9
      ∧ noiseVarCode exImgNoise ≠ noiseVarExact exImgNoise
      ∧ (assess_noise exImgNoise).quality = .excellent
      ∧ ¬ noiseVarExact exImgNoise < 25 := by
  have hsq : gridSqSum (noiseDiff exImgNoise) = 331393 := by decide
  have hs : gridSum (noiseDiff exImgNoise) = 1727 := by decide
  have hc : gridCount (noiseDiff exImgNoise) = 9 := by decide
  have hsq2 : gridSqSum (noiseDiffExact exImgNoise) = 69249 := by decide
  have hs2 : gridSum (noiseDiffExact exImgNoise) = -321 := by decide
  have hc2 : gridCount (noiseDiffExact exImgNoise) = 9 := by decide
  have hcode : noiseVarCode exImgNoise = 8/81 := by
    rw [noiseVarCode, gridVar, gridMean, hsq, hs, hc]
    norm_num
  have hexact : noiseVarExact exImgNoise = 57800/9 := by
    rw [noiseVarExact, gridVar, gridMean, hsq2, hs2, hc2]
    norm_num
  refine ⟨hcode, hexact, ?_, ?_, ?_⟩
  · rw [hcode, hexact]; norm_num
  · simp only [assess_noise, hcode]
    rw [if_pos (by norm_num)]
  · rw [hexact]; norm_num

/-- C1 (amended): the noise metric scores the standard deviation of the
difference between luminance and its 5x5 Gaussian blur taken in unsigned
8-bit arithmetic (numpy uint8 wraparound, i.e. modulo 256), not the exact
difference; tiers Excellent < 5, Good < 10, Fair < 20, Poor ≥ 20 on that
standard deviation, stated here equivalently on its square noiseVarCode
(the variance of the wrapped difference grid) against the squared
thresholds 25 / 100 / 400. -/
theorem c1_noise_score_amended (image : Img) :
    (assess_noise image).varVal = noiseVarCode image
      ∧ ((assess_noise image).quality = .excellent ↔ noiseVarCode image < 25)
      ∧ ((assess_noise image).quality = .good ↔
          25 ≤ noiseVarCode image ∧ noiseVarCode image < 100)
      ∧ ((assess_noise image).quality = .fair ↔
          100 ≤ noiseVarCode image ∧ noiseVarCode image < 400)
      ∧ ((assess_noise image).quality = .poor ↔ 400 ≤ noiseVarCode image) := by
  simp only [assess_noise]
  split_ifs with h1 h2 h3 <;> refine ⟨rfl, ?_, ?_, ?_, ?_⟩ <;>
    simp_all <;> intros <;> linarith

/-- A one-row image of 250 gray pixels: 249 samples of luminance 80 and
one of 79, so the mean luminance is 19999/250 = 79.996.  Its emitted
(2-decimal) score rounds up to exactly 80.00 while the tier is decided on
the unrounded mean. -/
def exImgBr : Img :=
  [List.replicate 249 ⟨80, 80, 80⟩ ++ [⟨79, 79, 79⟩]]

/-- Tier thresholds of assess_sharpness on the (unrounded) Laplacian
variance: Excellent > 500, Good > 200, Fair > 100, else Poor. -/
def sharpnessQuality (v : ℚ) : Quality :=
  if v > 500 then .excellent
  else if v > 200 then .good
  else if v > 100 then .fair
  else .poor

/-- Tier thresholds of assess_contrast on the luminance variance: the
source compares the unrounded standard deviation with 60 / 40 / 25, which
squares to 3600 / 1600 / 625 on the variance. -/
def contrastQuality (v : ℚ) : Quality :=
  if v > 3600 then .excellent
  else if v > 1600 then .good
  else if v > 625 then .fair
  else .poor

/-- Tier thresholds of assess_noise on the variance of the wrapped
difference grid: the source compares the unrounded standard deviation
with 5 / 10 / 20, which squares to 25 / 100 / 400 on the variance. -/
def noiseQuality (v : ℚ) : Quality :=
  if v < 25 then .excellent
  else if v < 100 then .good
  else if v < 400 then .fair
  else .poor

/-- Tier thresholds of assess_color_balance on the (unrounded) max
channel deviation: Excellent < 10, Good < 20, Fair < 35, else Poor. -/
def colorBalanceQuality (d : ℚ) : Quality :=
  if d < 10 then .excellent
  else if d < 20 then .good
  else if d < 35 then .fair
  else .poor

/-- Tier bands of assess_saturation on the (unrounded) mean saturation:
Excellent [80,150], Good [60,180], Fair [40,200], else Poor. -/
def saturationQuality (m : ℚ) : Quality :=
  if 80 ≤ m ∧ m ≤ 150 then .excellent
  else if 60 ≤ m ∧ m ≤ 180 then .good
  else if 40 ≤ m ∧ m ≤ 200 then .fair
  else .poor

/-- C5: brightness tier boundaries are exact and inclusive — mean 80.0 and
mean 180.0 classify Excellent and 79.99 classifies Good (hence at most
Good) — and for EVERY metric the tier compares the unrounded statistic
even though the emitted score is rounded to 2 decimals.  For each of the
six metrics the theorem states that the assigned tier is the tier
function of the exact (unrounded) statistic and that the emitted score is
the rounded statistic (for contrast and noise the emitted score is the
square root of the carried variance, so the result exposes the unrounded
variance and the demonstrations work on squares), together with a
concrete value where rounding to 2 decimals would flip the tier:
brightness mean 79.996 (score exactly 80, tier Good not Excellent),
sharpness 500.004 (Excellent; its rounding 500 would be Good), contrast
std 60.004 (Excellent; its rounding 60 would be Good), noise std 4.996
(Excellent; its rounding 5 would be Good), color-balance deviation 9.996
(Excellent; its rounding 10 would be Good), saturation mean 79.996
(Good; its rounding 80 would be Excellent). -/
theorem c5_brightness_boundaries_and_unrounded_tiering :
    brightnessQuality 80 = .excellent
      ∧ brightnessQuality 180 = .excellent
      ∧ brightnessQuality (7999/100) = .good
      ∧ (∀ image, (assess_brightness image).quality
            = brightnessQuality (gridMean (grayImg image))
          ∧ (assess_brightness image).score = round2 (gridMean (grayImg image)))
      ∧ gridMean (grayImg exImgBr) = 19999/250
      ∧ (assess_brightness exImgBr).quality = .good
      ∧ (assess_brightness exImgBr).score = 80
      ∧ brightnessQuality ((assess_brightness exImgBr).score) = .excellent
      ∧ (∀ image, (assess_sharpness image).quality
            = sharpnessQuality (gridVar (laplacianGrid (grayImg image)))
          ∧ (assess_sharpness image).score
            = round2 (gridVar (laplacianGrid (grayImg image))))
      ∧ sharpnessQuality (500004/1000) = .excellent
      ∧ round2 (500004/1000) = 500
      ∧ sharpnessQuality 500 = .good
      ∧ (∀ image, (assess_contrast image).quality
            = contrastQuality (gridVar (grayImg image))
          ∧ (assess_contrast image).varVal = gridVar (grayImg image))
      ∧ contrastQuality ((60004/1000) ^ 2) = .excellent
      ∧ contrastQuality ((round2 (60004/1000)) ^ 2) = .good
      ∧ (∀ image, (assess_noise image).quality = noiseQuality (noiseVarCode image)
          ∧ (assess_noise image).varVal = noiseVarCode image)
      ∧ noiseQuality ((4996/1000) ^ 2) = .excellent
      ∧ noiseQuality ((round2 (4996/1000)) ^ 2) = .good
      ∧ (∀ mb mg mr : ℚ, (colorBalanceFromMeans mb mg mr).quality
            = colorBalanceQuality (maxDeviation mb mg mr)
          ∧ (colorBalanceFromMeans mb mg mr).score
            = round2 (maxDeviation mb mg mr))
      ∧ colorBalanceQuality (9996/1000) = .excellent
      ∧ colorBalanceQuality (round2 (9996/1000)) = .good
      ∧ (∀ image, (assess_saturation image).quality
            = saturationQuality (gridMean (satGrid image))
          ∧ (assess_saturation image).score = round2 (gridMean (satGrid image)))
      ∧ saturationQuality (79996/1000) = .good
      ∧ round2 (79996/1000) = 80
      ∧ saturationQuality 80 = .excellent := by
  have hgen : ∀ image, (assess_brightness image).quality
      = brightnessQuality (gridMean (grayImg image))
      ∧ (assess_brightness image).score = round2 (gridMean (grayImg image)) := by
    intro image
    simp only [assess_brightness, brightnessQuality]
    split_ifs <;> exact ⟨rfl, rfl⟩
  have hsum : gridSum (grayImg exImgBr) = 19999 := by decide
  have hcnt : gridCount (grayImg exImgBr) = 250 := by decide
  have hmean : gridMean (grayImg exImgBr) = 19999/250 := by
    rw [gridMean, hsum, hcnt]; norm_num
  have hq : (assess_brightness exImgBr).quality = .good := by
    rw [(hgen exImgBr).1, hmean, brightnessQuality]
    rw [if_neg (by norm_num), if_pos (by norm_num)]
  have hs : (assess_brightness exImgBr).score = 80 := by
    rw [(hgen exImgBr).2, hmean]
    norm_num [round2, roundTo, roundHalfEven]
  have hb1 : brightnessQuality 80 = .excellent := by
    rw [brightnessQuality, if_pos (by norm_num)]
  have hb2 : brightnessQuality 180 = .excellent := by
    rw [brightnessQuality, if_pos (by norm_num)]
  have hb3 : brightnessQuality (7999/100) = .good := by
    rw [brightnessQuality, if_neg (by norm_num), if_pos (by norm_num)]
  have hb4 : brightnessQuality ((assess_brightness exImgBr).score) = .excellent := by
    rw [hs]; exact hb1
  have hshGen : ∀ image, (assess_sharpness image).quality
      = sharpnessQuality (gridVar (laplacianGrid (grayImg image)))
      ∧ (assess_sharpness image).score
        = round2 (gridVar (laplacianGrid (grayImg image))) := by
    intro image
    simp only [assess_sharpness, sharpnessQuality]
    split_ifs <;> exact ⟨rfl, rfl⟩
  have hsh1 : sharpnessQuality (500004/1000) = .excellent := by
    rw [sharpnessQuality, if_pos (by norm_num)]
  have hsh2 : round2 (500004/1000) = 500 := by
    norm_num [round2, roundTo, roundHalfEven]
  have hsh3 : sharpnessQuality 500 = .good := by
    rw [sharpnessQuality, if_neg (by norm_num), if_pos (by norm_num)]
  have hctGen : ∀ image, (assess_contrast image).quality
      = contrastQuality (gridVar (grayImg image))
      ∧ (assess_contrast image).varVal = gridVar (grayImg image) := by
    intro image
    simp only [assess_contrast, contrastQuality]
    split_ifs <;> exact ⟨rfl, rfl⟩
  have hct1 : contrastQuality ((60004/1000 : ℚ) ^ 2) = .excellent := by
    rw [contrastQuality, if_pos (by norm_num)]
  have hct2 : contrastQuality ((round2 (60004/1000)) ^ 2) = .good := by
    have h60 : round2 (60004/1000) = 60 := by
      norm_num [round2, roundTo, roundHalfEven]
    rw [h60, contrastQuality, if_neg (by norm_num), if_pos (by norm_num)]
  have hnzGen : ∀ image, (assess_noise image).quality
      = noiseQuality (noiseVarCode image)
      ∧ (assess_noise image).varVal = noiseVarCode image := by
    intro image
    simp only [assess_noise, noiseQuality]
    split_ifs <;> exact ⟨rfl, rfl⟩
  have hnz1 : noiseQuality ((4996/1000 : ℚ) ^ 2) = .excellent := by
    rw [noiseQuality, if_pos (by norm_num)]
  have hnz2 : noiseQuality ((round2 (4996/1000)) ^ 2) = .good := by
    have h5 : round2 (4996/1000) = 5 := by
      norm_num [round2, roundTo, roundHalfEven]
    rw [h5, noiseQuality, if_neg (by norm_num), if_pos (by norm_num)]
  have hcbGen : ∀ mb mg mr : ℚ, (colorBalanceFromMeans mb mg mr).quality
      = colorBalanceQuality (maxDeviation mb mg mr)
      ∧ (colorBalanceFromMeans mb mg mr).score
        = round2 (maxDeviation mb mg mr) := by
    intro mb mg mr
    simp only [colorBalanceFromMeans, colorBalanceQuality]
    split_ifs <;> exact ⟨rfl, rfl⟩
  have hcb1 : colorBalanceQuality (9996/1000) = .excellent := by
    rw [colorBalanceQuality, if_pos (by norm_num)]
  have hcb2 : colorBalanceQuality (round2 (9996/1000)) = .good := by
    have h10 : round2 (9996/1000) = 10 := by
      norm_num [round2, roundTo, roundHalfEven]
    rw [h10, colorBalanceQuality, if_neg (by norm_num), if_pos (by norm_num)]
  have hstGen : ∀ image, (assess_saturation image).quality
      = saturationQuality (gridMean (satGrid image))
      ∧ (assess_saturation image).score = round2 (gridMean (satGrid image)) := by
    intro image
    simp only [assess_saturation, saturationQuality]
    split_ifs <;> exact ⟨rfl, rfl⟩
  have hst1 : saturationQuality (79996/1000) = .good := by
    rw [saturationQuality, if_neg (by norm_num), if_pos (by norm_num)]
  have hst2 : round2 (79996/1000) = 80 := by
    norm_num [round2, roundTo, roundHalfEven]
  have hst3 : saturationQuality 80 = .excellent := by
    rw [saturationQuality, if_pos (by norm_num)]
  exact ⟨hb1, hb2, hb3, hgen, hmean, hq, hs, hb4, hshGen, hsh1, hsh2, hsh3,
    hctGen, hct1, hct2, hnzGen, hnz1, hnz2, hcbGen, hcb1, hcb2,
    hstGen, hst1, hst2, hst3⟩

/-- A 1x1 image whose single pixel has b = 90, g = 100, r = 150, so the
channel means are exactly red 150, green 100, blue 90. -/
def exImgCb : Img := [[⟨90, 100, 150⟩]]

/-- C6: whenever the max channel deviation reaches the Poor tier (>= 35),
the description names the strictly greatest channel mean — reddish when
red is strictly greatest, greenish for green, bluish for blue — and on
channel means red 150 / green 100 / blue 90 the metric classifies Poor
and names reddish. -/
theorem c6_color_cast_naming :
    (∀ mb mg mr : ℚ, 35 ≤ maxDeviation mb mg mr → mr > mg → mr > mb →
        (colorBalanceFromMeans mb mg mr).quality = .poor
          ∧ (colorBalanceFromMeans mb mg mr).description
            = "The image has a strong reddish color cast affecting overall appearance.")
      ∧ (∀ mb mg mr : ℚ, 35 ≤ maxDeviation mb mg mr → mg > mr → mg > mb →
          (colorBalanceFromMeans mb mg mr).quality = .poor
            ∧ (colorBalanceFromMeans mb mg mr).description
              = "The image has a strong greenish color cast affecting overall appearance.")
      ∧ (∀ mb mg mr : ℚ, 35 ≤ maxDeviation mb mg mr → mb > mr → mb > mg →
          (colorBalanceFromMeans mb mg mr).quality = .poor
            ∧ (colorBalanceFromMeans mb mg mr).description
              = "The image has a strong bluish color cast affecting overall appearance.")
      ∧ imgMeanBy exImgCb (fun p => p.r) = 150
      ∧ imgMeanBy exImgCb (fun p => p.g) = 100
      ∧ imgMeanBy exImgCb (fun p => p.b) = 90
      ∧ (assess_color_balance exImgCb).quality = .poor
      ∧ (assess_color_balance exImgCb).description
          = "The image has a strong reddish color cast affecting overall appearance." := by
  have hred : ∀ mb mg mr : ℚ, 35 ≤ maxDeviation mb mg mr → mr > mg → mr > mb →
      (colorBalanceFromMeans mb mg mr).quality = .poor
        ∧ (colorBalanceFromMeans mb mg mr).description
          = "The image has a strong reddish color cast affecting overall appearance." := by
    intro mb mg mr hdev h1 h2
    simp only [colorBalanceFromMeans]
    rw [if_neg (not_lt.mpr (by linarith)), if_neg (not_lt.mpr (by linarith)),
      if_neg (not_lt.mpr (by linarith))]
    refine ⟨rfl, ?_⟩
    rw [castAdjective, if_pos ⟨h1, h2⟩]
    rfl
  have hmr : imgMeanBy exImgCb (fun p => p.r) = 150 := by
    rw [imgMeanBy, show imgSumBy exImgCb (fun p => p.r) = 150 from by decide,
      show imgCount exImgCb = 1 from by decide]
    norm_num
  have hmg : imgMeanBy exImgCb (fun p => p.g) = 100 := by
    rw [imgMeanBy, show imgSumBy exImgCb (fun p => p.g) = 100 from by decide,
      show imgCount exImgCb = 1 from by decide]
    norm_num
  have hmb : imgMeanBy exImgCb (fun p => p.b) = 90 := by
    rw [imgMeanBy, show imgSumBy exImgCb (fun p => p.b) = 90 from by decide,
      show imgCount exImgCb = 1 from by decide]
    norm_num
  have hcb : assess_color_balance exImgCb = colorBalanceFromMeans 90 100 150 := by
    rw [assess_color_balance, hmr, hmg, hmb]
  have hdev : (35 : ℚ) ≤ maxDeviation 90 100 150 := by
    simp only [maxDeviation]
    refine le_trans ?_ (le_max_left _ _)
    rw [abs_of_nonneg (by norm_num)]
    norm_num
  have hconc := hred 90 100 150 hdev (by norm_num) (by norm_num)
  refine ⟨hred, ?_, ?_, hmr, hmg, hmb, ?_, ?_⟩
  · intro mb mg mr hdev2 h1 h2
    simp only [colorBalanceFromMeans]
    rw [if_neg (not_lt.mpr (by linarith)), if_neg (not_lt.mpr (by linarith)),
      if_neg (not_lt.mpr (by linarith))]
    have hnot1 : ¬(mr > mg ∧ mr > mb) := by rintro ⟨a, b⟩; linarith
    refine ⟨rfl, ?_⟩
    rw [castAdjective, if_neg hnot1, if_pos ⟨h1, h2⟩]
    rfl
  · intro mb mg mr hdev2 h1 h2
    simp only [colorBalanceFromMeans]
    rw [if_neg (not_lt.mpr (by linarith)), if_neg (not_lt.mpr (by linarith)),
      if_neg (not_lt.mpr (by linarith))]
    have hnot1 : ¬(mr > mg ∧ mr > mb) := by rintro ⟨a, b⟩; linarith
    have hnot2 : ¬(mg > mr ∧ mg > mb) := by rintro ⟨a, b⟩; linarith
    refine ⟨rfl, ?_⟩
    rw [castAdjective, if_neg hnot1, if_neg hnot2]
    rfl
  · rw [hcb]
    exact hconc.1
  · rw [hcb]
    exact hconc.2

/-- Witness for C6: the general cast-naming statement applied at the
concrete channel means red 150, green 100, blue 90. -/
theorem c6_color_cast_naming_witness :
    (35 : ℚ) ≤ maxDeviation 90 100 150
      ∧ (colorBalanceFromMeans 90 100 150).quality = .poor
      ∧ (colorBalanceFromMeans 90 100 150).description
          = "The image has a strong reddish color cast affecting overall appearance." := by
  have hdev : (35 : ℚ) ≤ maxDeviation 90 100 150 := by
    simp only [maxDeviation]
    refine le_trans ?_ (le_max_left _ _)
    rw [abs_of_nonneg (by norm_num)]
    norm_num
  have h := c6_color_cast_naming.1 90 100 150 hdev (by norm_num) (by norm_num)
  exact ⟨hdev, h.1, h.2⟩

/-! ## Decoder (load_image) and assessment pipeline -/

/-- The Python exception kinds load_image can raise, with their messages:
FileNotFoundError for a missing path, ValueError for decode failures. -/
inductive PyError where
  | fileNotFound : String → PyError
  | valueError : String → PyError
deriving DecidableEq, Repr

/-- str(e): the message carried by the exception. -/
def PyError.msg : PyError → String
  | .fileNotFound m => m
  | .valueError m => m

/-- The fixed set of recognized camera-RAW extensions (self.raw_extensions). -/
def raw_extensions : List String :=
  [".arw", ".cr2", ".cr3", ".nef", ".dng", ".raf", ".orf", ".rw2",
   ".pef", ".srw", ".x3f", ".3fr", ".fff", ".iiq", ".k25", ".kdc",
   ".mef", ".mos", ".mrw", ".nrw", ".ptx", ".r3d", ".raw", ".rwl",
   ".rwz", ".sr2", ".srf", ".srw"]

/-- ASCII lower-casing (Python str.lower on ASCII data, which is all an
extension contains), written over the character list so that it reduces
in the kernel. -/
def strToLower (s : String) : String := ⟨s.data.map Char.toLower⟩

/-- The environment one load_image call observes.  The filesystem and the
two external decoders are oracles: pathExists is os.path.exists(path),
ext is os.path.splitext(path)[1], rawDev is the outcome of
rawpy.imread(..).postprocess(..) (error message or developed image),
rasterDecode is the outcome of cv2.imread (none when it returns None),
and canny is cv2.Canny(gray, 50, 150) used downstream by the resolution
metric.  Decoding is deterministic for a given file, so one oracle value
per environment. -/
structure FileEnv where
  path : String
  pathExists : Bool
  ext : String
  rawDev : Except String Img
  rasterDecode : Option Img
  canny : List (List ℤ) → List (List Bool)

/-- load_image: fail with FileNotFoundError before any decode attempt if
the path does not exist; otherwise dispatch on the lower-cased extension
to the RAW developer (wrapping its failure cause in a ValueError) or the
raster decoder (ValueError when it rejects the file). -/
def load_image (env : FileEnv) : Except PyError Img :=
  if env.pathExists = false then
    .error (.fileNotFound ("Image not found: " ++ env.path))
  else
    let file_ext := strToLower env.ext
    if raw_extensions.contains file_ext then
      match env.rawDev with
      | .ok img_rgb => .ok img_rgb
      | .error e => .error (.valueError
          ("Could not process raw image " ++ env.path ++ ": " ++ e))
    else
      match env.rasterDecode with
      | none => .error (.valueError ("Could not load image: " ++ env.path))
      | some img_bgr => .ok img_bgr

/-- C8: the decoder fails with the NotFound error when the path does not
exist, whatever the decode oracles would have answered (the check precedes
any decode attempt); when the path exists and RAW development fails the
error is a ValueError carrying the underlying cause in its message; when
the path exists and the raster decoder rejects the file the error is a
ValueError naming the file. -/
theorem c8_decoder_notfound_before_decode :
    (∀ env : FileEnv, env.pathExists = false →
        load_image env = .error (.fileNotFound ("Image not found: " ++ env.path)))
      ∧ (∀ (env : FileEnv) (cause : String), env.pathExists = true →
          raw_extensions.contains (strToLower env.ext) = true →
          env.rawDev = .error cause →
          load_image env = .error (.valueError
            ("Could not process raw image " ++ env.path ++ ": " ++ cause)))
      ∧ (∀ env : FileEnv, env.pathExists = true →
          raw_extensions.contains (strToLower env.ext) = false →
          env.rasterDecode = none →
          load_image env = .error (.valueError ("Could not load image: " ++ env.path))) := by
  refine ⟨?_, ?_, ?_⟩
  · intro env h
    simp [load_image, h]
  · intro env cause h hraw hdev
    simp only [load_image, h]
    rw [if_neg (by simp), if_pos hraw, hdev]
  · intro env h hraw hdec
    simp only [load_image, h]
    rw [if_neg (by simp), if_neg ?hc, hdec]
    case hc => rw [hraw]; exact Bool.false_ne_true

/-- A concrete environment for a missing path (decode oracles would even
succeed, showing the existence check wins). -/
def envMissing : FileEnv :=
  { path := "missing.jpg", pathExists := false, ext := ".jpg",
    rawDev := .ok exImgCb, rasterDecode := some exImgCb, canny := fun _ => [] }

/-- A concrete environment for an existing RAW file whose development
fails with a cause string. -/
def envRawFail : FileEnv :=
  { path := "shot.ARW", pathExists := true, ext := ".ARW",
    rawDev := .error "unsupported sensor layout", rasterDecode := none,
    canny := fun _ => [] }

/-- A concrete environment for an existing non-RAW file the raster decoder
rejects. -/
def envRasterFail : FileEnv :=
  { path := "broken.jpg", pathExists := true, ext := ".jpg",
    rawDev := .ok exImgCb, rasterDecode := none, canny := fun _ => [] }

/-- Witness for C8: the three branches of the decoder contract exercised
at concrete environments. -/
theorem c8_decoder_notfound_before_decode_witness :
    load_image envMissing = .error (.fileNotFound "Image not found: missing.jpg")
      ∧ load_image envRawFail = .error (.valueError
          "Could not process raw image shot.ARW: unsupported sensor layout")
      ∧ load_image envRasterFail = .error (.valueError "Could not load image: broken.jpg") :=
  ⟨c8_decoder_notfound_before_decode.1 envMissing rfl,
   c8_decoder_notfound_before_decode.2.1 envRawFail "unsupported sensor layout"
     rfl (by decide) rfl,
   c8_decoder_notfound_before_decode.2.2 envRasterFail rfl (by decide) rfl⟩

/-- A value of the results dict built by assess_image. -/
inductive ReportVal where
  | pathVal : String → ReportVal
  | metric : MetricResult → ReportVal
  | stdMetric : StdMetricResult → ReportVal
  | resolutionVal : ResolutionResult → ReportVal
  | overallVal : OverallResult → ReportVal
deriving DecidableEq, Repr

/-- The results dict of assess_image, as insertion-ordered key/value pairs. -/
abbrev Report := List (String × ReportVal)

/-- results[aspect]["quality"] as the aggregator reads it: the tier of a
per-aspect entry, none for non-aspect entries. -/
def ReportVal.qualityOf : ReportVal → Option Quality
  | .metric m => some m.quality
  | .stdMetric m => some m.quality
  | _ => none

/-- The aggregator view of a report: aspect key to recorded tier. -/
def reportQuality (r : Report) : String → Option Quality := fun k =>
  match r.lookup k with
  | some v => v.qualityOf
  | none => none

/-- The results dict assess_image builds on a successful decode: the
image path, the seven aspect entries, then the overall entry computed
from the results accumulated so far. -/
def mkReport (env : FileEnv) (img_bgr : Img) : Report :=
  let results : Report :=
    [("image_path", .pathVal env.path),
     ("sharpness", .metric (assess_sharpness img_bgr)),
     ("brightness", .metric (assess_brightness img_bgr)),
     ("contrast", .stdMetric (assess_contrast img_bgr)),
     ("noise", .stdMetric (assess_noise img_bgr)),
     ("color_balance", .metric (assess_color_balance img_bgr)),
     ("saturation", .metric (assess_saturation img_bgr)),
     ("resolution", .resolutionVal (assess_resolution_quality env.canny img_bgr))]
  results ++ [("overall", .overallVal (calculate_overall_score (reportQuality results)))]

/-- assess_image: decode and build the full report; any exception (the
decoder is the only raiser in the embedding) is caught and returned as a
structured error value carrying str(e).  No partially filled report can
escape: the report literal is built in one step. -/
def assess_image (env : FileEnv) : Except String Report :=
  match load_image env with
  | .error e => .error e.msg
  | .ok img_bgr => .ok (mkReport env img_bgr)

/-- The seven aspect keys plus the overall key. -/
def reportKeys : List String :=
  ["sharpness", "brightness", "contrast", "noise", "color_balance",
   "saturation", "resolution", "overall"]

/-- C2: for every input, assess_image returns either a structured error or
a report carrying all seven aspect keys and the overall key — never a
report with only some of them. -/
theorem c2_report_all_or_nothing (env : FileEnv) :
    (∃ e, assess_image env = .error e)
      ∨ (∃ rep, assess_image env = .ok rep
          ∧ (reportKeys.all (fun k => (rep.map Prod.fst).contains k)) = true) := by
  cases h : load_image env with
  | error e =>
    exact Or.inl ⟨e.msg, by simp [assess_image, h]⟩
  | ok img =>
    refine Or.inr ⟨mkReport env img, by simp [assess_image, h], ?_⟩
    have hkeys : (mkReport env img).map Prod.fst
        = ["image_path", "sharpness", "brightness", "contrast", "noise",
           "color_balance", "saturation", "resolution", "overall"] := by
      simp [mkReport]
    rw [hkeys]
    decide

/-- The fields the ImageQualityAssessor constructor initializes
(self.results and self.explanations); nothing in the assessment path reads
or writes them. -/
structure AssessorState where
  results : Report
  explanations : List (String × String)

/-- The state of a freshly constructed assessor. -/
def initState : AssessorState := ⟨[], []⟩

/-- assess_image as the method runs: explicit state threading.  The body
of the source method only binds locals, so the instance state passes
through untouched and the answer is a function of the input alone. -/
def assess_image_st (s : AssessorState) (env : FileEnv) :
    AssessorState × Except String Report :=
  (s, assess_image env)

/-- C9: assess is deterministic — the answer does not depend on the
carried assessor state, a second run on the same unchanged input (same
environment, hence same canonical pixel buffer and oracle answers)
returns the identical report, and the state is unchanged by a run. -/
theorem c9_assess_deterministic :
    (∀ (s₁ s₂ : AssessorState) (env : FileEnv),
        (assess_image_st s₁ env).2 = (assess_image_st s₂ env).2)
      ∧ (∀ (s : AssessorState) (env : FileEnv),
          (assess_image_st (assess_image_st s env).1 env).2
            = (assess_image_st s env).2)
      ∧ (∀ (s : AssessorState) (env : FileEnv),
          (assess_image_st s env).1 = s) :=
  ⟨fun _ _ _ => rfl, fun _ _ => rfl, fun _ _ => rfl⟩

/-! ## Recommendations generator -/

/-- The fields of a per-aspect result dict that generate_recommendations
reads: the tier and the emitted score. -/
structure AspectEntry where
  quality : Quality
  score : ℚ
deriving DecidableEq, Repr

/-- quality in ["Poor", "Fair"]. -/
def weakQ (q : Quality) : Bool := q == .poor || q == .fair

/-- Sharpness advisory sentence. -/
def rSharp : String :=
  "Consider using a tripod or faster shutter speed to improve sharpness"

/-- Brightness advisory sentence for scores below 80. -/
def rBrightUp : String := "Increase exposure or adjust shadows to brighten the image"

/-- Brightness advisory sentence otherwise. -/
def rBrightDown : String := "Reduce exposure or adjust highlights to prevent overexposure"

/-- Contrast advisory sentence. -/
def rContrast : String := "Enhance contrast using curves or levels adjustment"

/-- Noise advisory sentence. -/
def rNoise : String := "Apply noise reduction or use lower ISO settings when capturing"

/-- Color-balance advisory sentence. -/
def rColor : String := "Adjust white balance or apply color correction"

/-- Saturation advisory sentence for scores below 60. -/
def rSatUp : String := "Increase color saturation for more vibrant appearance"

/-- Saturation advisory sentence otherwise. -/
def rSatDown : String := "Reduce saturation for more natural color appearance"

/-- The fallback sentence when no aspect triggers a recommendation. -/
def rFallback : String := "Image quality is good - no major improvements needed"

/-- The sequence of appends the generator performs once all six entries
are in hand (the six if-statements of the source, in order). -/
def recsOf (sh br ct nz cb st : AspectEntry) : List String :=
  (if weakQ sh.quality then [rSharp] else [])
    ++ (if weakQ br.quality then
          [if br.score < 80 then rBrightUp else rBrightDown] else [])
    ++ (if weakQ ct.quality then [rContrast] else [])
    ++ (if weakQ nz.quality then [rNoise] else [])
    ++ (if weakQ cb.quality then [rColor] else [])
    ++ (if weakQ st.quality then
          [if st.score < 60 then rSatUp else rSatDown] else [])

/-- generate_recommendations.  The source indexes results["sharpness"],
results["brightness"], ... directly, so a missing key raises KeyError; the
embedding surfaces that as an error carrying the missing key, in the
access order of the source. -/
def generate_recommendations (results : String → Option AspectEntry) :
    Except String (List String) :=
  match results ("sharpness") with
  | none => .error ("sharpness")
  | some sh =>
    match results ("brightness") with
    | none => .error ("brightness")
    | some br =>
      match results ("contrast") with
      | none => .error ("contrast")
      | some ct =>
        match results ("noise") with
        | none => .error ("noise")
        | some nz =>
          match results ("color_balance") with
          | none => .error ("color_balance")
          | some cb =>
            match results ("saturation") with
            | none => .error ("saturation")
            | some st =>
              let recommendations := recsOf sh br ct nz cb st
              .ok (if recommendations.isEmpty then [rFallback] else recommendations)

/-- A results map holding exactly the six weighted aspect entries. -/
def sixMap (sh br ct nz cb st : AspectEntry) : String → Option AspectEntry := fun k =>
  if k = "sharpness" then some sh
  else if k = "brightness" then some br
  else if k = "contrast" then some ct
  else if k = "noise" then some nz
  else if k = "color_balance" then some cb
  else if k = "saturation" then some st
  else none

/-- Number of the six aspects tiered Poor or Fair. -/
def weakCount (sh br ct nz cb st : AspectEntry) : ℕ :=
  (weakQ sh.quality).toNat + (weakQ br.quality).toNat + (weakQ ct.quality).toNat
    + (weakQ nz.quality).toNat + (weakQ cb.quality).toNat + (weakQ st.quality).toNat

/-- Every advisory sentence the generator can emit for a weak aspect. -/
def allRecSentences : List String :=
  [rSharp, rBrightUp, rBrightDown, rContrast, rNoise, rColor, rSatUp, rSatDown]

/-- The six keys the generator reads. -/
def sixKeys : List String :=
  ["sharpness", "brightness", "contrast", "noise", "color_balance", "saturation"]

/-- On a complete six-aspect map the generator reaches the append chain
and the fallback test. -/
theorem generate_recommendations_sixMap (sh br ct nz cb st : AspectEntry) :
    generate_recommendations (sixMap sh br ct nz cb st)
      = .ok (if (recsOf sh br ct nz cb st).isEmpty then [rFallback]
             else recsOf sh br ct nz cb st) := by
  have h1 : sixMap sh br ct nz cb st ("sharpness") = some sh := by simp [sixMap]
  have h2 : sixMap sh br ct nz cb st ("brightness") = some br := by simp [sixMap]
  have h3 : sixMap sh br ct nz cb st ("contrast") = some ct := by simp [sixMap]
  have h4 : sixMap sh br ct nz cb st ("noise") = some nz := by simp [sixMap]
  have h5 : sixMap sh br ct nz cb st ("color_balance") = some cb := by simp [sixMap]
  have h6 : sixMap sh br ct nz cb st ("saturation") = some st := by simp [sixMap]
  simp only [generate_recommendations, h1, h2, h3, h4, h5, h6]

/-- The append chain emits exactly one sentence per weak aspect. -/
theorem recsOf_length (sh br ct nz cb st : AspectEntry) :
    (recsOf sh br ct nz cb st).length = weakCount sh br ct nz cb st := by
  rcases h1 : weakQ sh.quality <;> rcases h2 : weakQ br.quality <;>
    rcases h3 : weakQ ct.quality <;> rcases h4 : weakQ nz.quality <;>
    rcases h5 : weakQ cb.quality <;> rcases h6 : weakQ st.quality <;>
    simp [recsOf, weakCount, h1, h2, h3, h4, h5, h6]

/-- Every sentence the append chain emits is one of the eight advisory
sentences (in particular it is never the fallback sentence). -/
theorem recsOf_subset (sh br ct nz cb st : AspectEntry) :
    ∀ x ∈ recsOf sh br ct nz cb st, x ∈ allRecSentences := by
  intro x hx
  simp only [recsOf, List.mem_append] at hx
  rcases hx with ((((hx | hx) | hx) | hx) | hx) | hx <;>
    (split_ifs at hx <;> simp_all [allRecSentences])

/-- C7: on a complete results map the generator succeeds; aspects tiered
Excellent or Good contribute nothing and each Poor or Fair aspect
contributes exactly one sentence (the emitted list has length
max(weakCount, 1)); with no weak aspect the output is exactly the
fallback sentence; with at least one weak aspect the fallback sentence
does not appear. -/
theorem c7_recommendations_monotone (sh br ct nz cb st : AspectEntry) :
    ∃ l, generate_recommendations (sixMap sh br ct nz cb st) = .ok l
      ∧ l.length = max (weakCount sh br ct nz cb st) 1
      ∧ (weakCount sh br ct nz cb st = 0 → l = [rFallback])
      ∧ (1 ≤ weakCount sh br ct nz cb st → rFallback ∉ l) := by
  refine ⟨_, generate_recommendations_sixMap sh br ct nz cb st, ?_, ?_, ?_⟩
  · by_cases hk : weakCount sh br ct nz cb st = 0
    · have hnil : recsOf sh br ct nz cb st = [] :=
        List.eq_nil_of_length_eq_zero (by rw [recsOf_length]; exact hk)
      rw [hnil, hk]
      simp
    · have hne : recsOf sh br ct nz cb st ≠ [] := by
        intro h
        apply hk
        rw [← recsOf_length sh br ct nz cb st, h]
        rfl
      have hif : (recsOf sh br ct nz cb st).isEmpty = false := by
        rcases hrec : recsOf sh br ct nz cb st with _ | ⟨a, t⟩
        · exact absurd hrec hne
        · rfl
      simp only [hif, Bool.false_eq_true, if_false]
      rw [recsOf_length]
      omega
  · intro hk
    have hnil : recsOf sh br ct nz cb st = [] :=
      List.eq_nil_of_length_eq_zero (by rw [recsOf_length]; exact hk)
    rw [hnil]
    simp
  · intro hk hmem
    have hne : recsOf sh br ct nz cb st ≠ [] := by
      intro h
      have := recsOf_length sh br ct nz cb st
      rw [h] at this
      simp at this
      omega
    have hif : (recsOf sh br ct nz cb st).isEmpty = false := by
      rcases hrec : recsOf sh br ct nz cb st with _ | ⟨a, t⟩
      · exact absurd hrec hne
      · rfl
    rw [hif] at hmem
    simp only [Bool.false_eq_true, if_false] at hmem
    have hin := recsOf_subset sh br ct nz cb st rFallback hmem
    revert hin
    decide

/-- An entry tiered Excellent. -/
def exEntryExc : AspectEntry := ⟨.excellent, 100⟩

/-- An entry tiered Poor. -/
def exEntryPoor : AspectEntry := ⟨.poor, 10⟩

/-- Witness for C7: with six Excellent entries the output is exactly the
fallback sentence; with one Poor aspect the output is one sentence and
the fallback does not appear. -/
theorem c7_recommendations_monotone_witness :
    generate_recommendations (sixMap exEntryExc exEntryExc exEntryExc
        exEntryExc exEntryExc exEntryExc) = .ok [rFallback]
      ∧ ∃ l, generate_recommendations (sixMap exEntryPoor exEntryExc exEntryExc
          exEntryExc exEntryExc exEntryExc) = .ok l
        ∧ l.length = 1 ∧ rFallback ∉ l := by
  constructor
  · obtain ⟨l, hgen, hlen, hzero, hpos⟩ := c7_recommendations_monotone
      exEntryExc exEntryExc exEntryExc exEntryExc exEntryExc exEntryExc
    rw [hzero (by decide)] at hgen
    exact hgen
  · obtain ⟨l, hgen, hlen, hzero, hpos⟩ := c7_recommendations_monotone
      exEntryPoor exEntryExc exEntryExc exEntryExc exEntryExc exEntryExc
    refine ⟨l, hgen, ?_, hpos (by decide)⟩
    rw [hlen]
    decide

/-- C10: generate_recommendations requires all six weighted aspect keys:
if any one of them is absent from the results map the generator fails
with a key-lookup error (it does not skip the aspect the way the
aggregator and the per-aspect report sections do). -/
theorem c10_recommendations_need_all_keys (results : String → Option AspectEntry)
    (k : String) (hk : k ∈ sixKeys) (hmiss : results k = none) :
    ∃ e, generate_recommendations results = .error e := by
  rcases h1 : results ("sharpness") with _ | sh
  · exact ⟨"sharpness", by simp [generate_recommendations, h1]⟩
  rcases h2 : results ("brightness") with _ | br
  · exact ⟨"brightness", by simp [generate_recommendations, h1, h2]⟩
  rcases h3 : results ("contrast") with _ | ct
  · exact ⟨"contrast", by simp [generate_recommendations, h1, h2, h3]⟩
  rcases h4 : results ("noise") with _ | nz
  · exact ⟨"noise", by simp [generate_recommendations, h1, h2, h3, h4]⟩
  rcases h5 : results ("color_balance") with _ | cb
  · exact ⟨"color_balance", by simp [generate_recommendations, h1, h2, h3, h4, h5]⟩
  rcases h6 : results ("saturation") with _ | st
  · exact ⟨"saturation", by simp [generate_recommendations, h1, h2, h3, h4, h5, h6]⟩
  exfalso
  simp [sixKeys] at hk
  rcases hk with rfl | rfl | rfl | rfl | rfl | rfl <;> simp_all

/-- A results map with five aspects present and saturation absent. -/
def exMissingMap : String → Option AspectEntry := fun k =>
  if k = "saturation" then none
  else sixMap exEntryExc exEntryExc exEntryExc exEntryExc exEntryExc exEntryExc k

/-- Witness for C10: the generator fails on the concrete map that lacks
only the saturation key. -/
theorem c10_recommendations_need_all_keys_witness :
    ∃ e, generate_recommendations exMissingMap = .error e :=
  c10_recommendations_need_all_keys exMissingMap "saturation" (by decide) (by decide)

end AutoIQA
